import Mathlib

/-!
Shallow embedding of the motion-sense-predict data-collection core:
the recording controller of `src/components/data-collection/DataCollectionForm.tsx`
(its state, `handleSensorData`, `startCollection`, `stopCollection`, `saveData`,
`addNewActivity`), the `MQTTService` mock telemetry client defined alongside it,
and the module-level `disconnectMqtt` of `src/services/mqttService.ts`.

Strings are modelled as lists of UTF-16 code units (`List Nat`); numbers that
the code treats as JS floats are modelled as rationals.
-/

namespace MotionSense

/-- Activity names, topics and similar strings, as lists of UTF-16 code units. -/
abbrev Str := List Nat

/-- Code-unit list of a string literal. -/
def strCodes (s : String) : Str := s.data.map Char.toNat

/-- Whitespace test used by `trim`, restricted to ASCII whitespace
(space, tab, line feed, carriage return). -/
def isWS (c : Nat) : Bool := c == 32 || c == 9 || c == 10 || c == 13

/-- One code unit of `String.prototype.toLowerCase` (ASCII letters). -/
def lowerCode (c : Nat) : Nat := if 65 ≤ c ∧ c ≤ 90 then c + 32 else c

/-- Embedding of `String.prototype.toLowerCase`. -/
def lowerStr (s : Str) : Str := s.map lowerCode

/-- Embedding of `String.prototype.trim`: drop whitespace from both ends. -/
def trimStr (s : Str) : Str :=
  ((s.dropWhile isWS).reverse.dropWhile isWS).reverse

/-- A 3-axis reading, fields as in the `SensorData` type of `mqttService`. -/
structure Vec3 where
  x : ℚ
  y : ℚ
  z : ℚ
deriving DecidableEq

/-- The `SensorData` record of `src/services/mqttService.ts`. -/
structure SensorData where
  acceleration : Vec3
  gyroscope : Vec3
  timestamp : ℤ
deriving DecidableEq

/-- The component state of `DataCollectionForm`: the `useState` cells plus the
`chartDataRef` mutable buffer.  `sensorData` mirrors `chartDataRef.current`
after each `setSensorData([...chartDataRef.current])`. -/
structure FormState where
  selectedActivity : Str
  newActivity : Str
  activities : List Str
  isCollecting : Bool
  sensorData : List SensorData
  chartData : List SensorData
  showNewActivityInput : Bool
deriving DecidableEq

/-- The seeded `DEFAULT_ACTIVITIES = ['standing', 'sitting', 'walking']`. -/
def DEFAULT_ACTIVITIES : List Str :=
  [strCodes "standing", strCodes "sitting", strCodes "walking"]

/-- Initial component state: empty selection, default activities, not
collecting, empty buffers. -/
def initialFormState : FormState :=
  { selectedActivity := []
    newActivity := []
    activities := DEFAULT_ACTIVITIES
    isCollecting := false
    sensorData := []
    chartData := []
    showNewActivityInput := false }

/-- The `handleSensorData` callback: append the sample to `chartDataRef.current`, keep only
the most recent 20 points (`updatedData.slice(updatedData.length - 20)`), and
publish a copy via `setSensorData`. -/
def handleSensorData (data : SensorData) (s : FormState) : FormState :=
  let updatedData := s.chartData ++ [data]
  let newChart :=
    if updatedData.length > 20 then updatedData.drop (updatedData.length - 20)
    else updatedData
  { s with chartData := newChart, sensorData := newChart }

/-- Deliver a whole sequence of samples to `handleSensorData`, oldest first. -/
def insertAll (l : List SensorData) (s : FormState) : FormState :=
  l.foldl (fun st d => handleSensorData d st) s

/-- Success path of `startCollection`: after `connect` resolves it sets
`isCollecting`, clears `chartDataRef.current` and `sensorData`; with no
selected activity it toasts an error and changes nothing. -/
def startCollection (s : FormState) : FormState :=
  if s.selectedActivity = [] then s
  else { s with isCollecting := true, chartData := [], sensorData := [] }

/-- The `stopCollection` handler: disconnect and clear the collecting flag; the buffers are
left as they are. -/
def stopCollection (s : FormState) : FormState :=
  { s with isCollecting := false }

/-- Outcome of `saveData`: either the no-data toast, or the success toast
carrying the saved samples and the selected activity. -/
inductive SaveResult
  | noData
  | saved (samples : List SensorData) (activity : Str)
deriving DecidableEq

/-- The `saveData` handler: if `chartDataRef.current.length === 0` report no data and
return; otherwise report success for the buffered samples and the selected
activity.  The buffer itself is never modified. -/
def saveData (s : FormState) : SaveResult × FormState :=
  if s.chartData.length = 0 then (SaveResult.noData, s)
  else (SaveResult.saved s.chartData s.selectedActivity, s)

/-- Outcome of `addNewActivity`: invalid-name toast, already-exists toast, or
a successful addition. -/
inductive AddResult
  | invalid
  | duplicate
  | added
deriving DecidableEq

/-- The `addNewActivity` handler: reject a name whose trim is empty; reject when
`activities.includes(newActivity.trim().toLowerCase())`; otherwise append the
trimmed lowercased name, select it, clear the input and hide it. -/
def addNewActivity (s : FormState) : AddResult × FormState :=
  if trimStr s.newActivity = [] then (AddResult.invalid, s)
  else if lowerStr (trimStr s.newActivity) ∈ s.activities then
    (AddResult.duplicate, s)
  else
    (AddResult.added,
      { s with
        activities := s.activities ++ [lowerStr (trimStr s.newActivity)]
        selectedActivity := lowerStr (trimStr s.newActivity)
        newActivity := []
        showNewActivityInput := false })

/-- One UI- or stream-triggered operation of the recording controller. -/
inductive FormStep : FormState → FormState → Prop
  | handle (d : SensorData) (s : FormState) : FormStep s (handleSensorData d s)
  | start (s : FormState) : FormStep s (startCollection s)
  | stop (s : FormState) : FormStep s (stopCollection s)
  | save (s : FormState) : FormStep s (saveData s).2
  | add (s : FormState) : FormStep s (addNewActivity s).2
  | typeNew (t : Str) (s : FormState) : FormStep s { s with newActivity := t }
  | select (a : Str) (s : FormState) (h : a ∈ s.activities) :
      FormStep s { s with selectedActivity := a }
  | toggleInput (b : Bool) (s : FormState) :
      FormStep s { s with showNewActivityInput := b }

/-- States the recording controller can reach from its initial state. -/
inductive Reachable : FormState → Prop
  | init : Reachable initialFormState
  | step (s s' : FormState) : Reachable s → FormStep s s' → Reachable s'

/-- The `MQTTConfig` record of `src/services/mqttService.ts`. -/
structure MQTTConfig where
  brokerUrl : Str
  username : Option Str
  password : Option Str
  clientId : Str
  topic : Str
deriving DecidableEq

/-- Observable state of the `MQTTService` singleton embedded in
`DataCollectionForm.tsx`: whether `client` is non-null, the `isConnected`
flag, whether `onMessageCallback` is non-null, the stored config, plus the
numbers of scheduled-but-unfired connect `setTimeout`s and of live
`setInterval` mock generators. -/
structure ServiceState where
  hasClient : Bool
  isConnected : Bool
  hasCallback : Bool
  config : Option MQTTConfig
  pendingConnects : Nat
  intervals : Nat
deriving DecidableEq

/-- Fresh `MQTTService`: all fields null/false, nothing scheduled. -/
def initialService : ServiceState :=
  { hasClient := false
    isConnected := false
    hasCallback := false
    config := none
    pendingConnects := 0
    intervals := 0 }

/-- The `configure(config)` method: store the configuration. -/
def configure (cfg : MQTTConfig) (s : ServiceState) : ServiceState :=
  { s with config := some cfg }

/-- Synchronous outcome of a `connect(onMessageCallback)` call: either the
immediate `Promise.reject(new Error('MQTT not configured'))`, or a pending
promise after the mock client and callback are installed. -/
inductive ConnectCallResult
  | rejectedNotConfigured
  | pending
deriving DecidableEq

/-- The synchronous part of `connect`: reject when `this.config` is null;
otherwise install the mock client and the callback and schedule the 500 ms
connect timeout.  There is no guard against a connect already in flight. -/
def connectCall (s : ServiceState) : ConnectCallResult × ServiceState :=
  match s.config with
  | none => (ConnectCallResult.rejectedNotConfigured, s)
  | some _ =>
    (ConnectCallResult.pending,
      { s with
        hasClient := true
        hasCallback := true
        pendingConnects := s.pendingConnects + 1 })

/-- Firing of one scheduled connect timeout: the `on('connect')` handler runs
first (if config and client are present, the mock `subscribe` succeeds and
`startMockDataGeneration` creates an interval when a callback is registered),
then the mock sets `isConnected = true`. -/
def fireConnectTimeout (s : ServiceState) : ServiceState :=
  if s.pendingConnects = 0 then s
  else
    let s1 :=
      if s.config.isSome && s.hasClient then
        if s.hasCallback then { s with intervals := s.intervals + 1 } else s
      else s
    { s1 with isConnected := true, pendingConnects := s.pendingConnects - 1 }

/-- The generator helper `randomValue = () => Math.random() * 20 - 10`, with the `Math.random()`
draw passed in as a rational `r` with `0 ≤ r < 1`. -/
def randomValue (r : ℚ) : ℚ := r * 20 - 10

/-- The `mockData` sample built on each generator tick, from the six
`randomValue()` draws and `Date.now()`. -/
def mockSample (r1 r2 r3 r4 r5 r6 : ℚ) (t : ℤ) : SensorData :=
  { acceleration := { x := randomValue r1, y := randomValue r2, z := randomValue r3 }
    gyroscope := { x := randomValue r4, y := randomValue r5, z := randomValue r6 }
    timestamp := t }

/-- One tick of a mock-generation interval: if `isConnected` or the callback
is gone the interval clears itself and emits nothing; otherwise it delivers a
`mockSample` to the callback. -/
def fireIntervalTick (r1 r2 r3 r4 r5 r6 : ℚ) (t : ℤ) (s : ServiceState) :
    ServiceState × Option SensorData :=
  if s.intervals = 0 then (s, none)
  else if s.isConnected && s.hasCallback then
    (s, some (mockSample r1 r2 r3 r4 r5 r6 t))
  else ({ s with intervals := s.intervals - 1 }, none)

/-- The `disconnect()` method: when a client exists and `isConnected`, `client.end`
clears `isConnected` and the callback; otherwise it resolves at once without
touching anything.  Either way the promise resolves. -/
def disconnectCall (s : ServiceState) : ServiceState :=
  if s.hasClient && s.isConnected then
    { s with isConnected := false, hasCallback := false }
  else s

/-- The `disconnectMqtt` function of `src/services/mqttService.ts`, over the module-level
`client` variable: a null client only logs; a non-null client gets `end()`
(the boolean records whether `end` ran) and the variable is nulled. -/
def disconnectMqtt (client : Option Unit) : Option Unit × Bool :=
  match client with
  | none => (none, false)
  | some _ => (none, true)

/-- An asynchronous event hitting the `MQTTService`: a `connect` call, a
connect timeout firing, a generator tick (with its random draws and clock
reading), or a `disconnect` call. -/
inductive Ev
  | connectEv
  | connTimeoutEv
  | tickEv (r1 r2 r3 r4 r5 r6 : ℚ) (t : ℤ)
  | disconnectEv

/-- Whether an event is a `connect` call. -/
def Ev.isConnectCall : Ev → Bool
  | Ev.connectEv => true
  | _ => false

/-- Apply one event; the boolean reports whether the observer callback was
invoked with a sample during this event. -/
def stepEv (e : Ev) (s : ServiceState) : ServiceState × Bool :=
  match e with
  | Ev.connectEv => ((connectCall s).2, false)
  | Ev.connTimeoutEv => (fireConnectTimeout s, false)
  | Ev.tickEv r1 r2 r3 r4 r5 r6 t =>
    ((fireIntervalTick r1 r2 r3 r4 r5 r6 t s).1,
      ((fireIntervalTick r1 r2 r3 r4 r5 r6 t s).2).isSome)
  | Ev.disconnectEv => (disconnectCall s, false)

/-- Run a sequence of events. -/
def runEvs (evs : List Ev) (s : ServiceState) : ServiceState :=
  evs.foldl (fun st e => (stepEv e st).1) s

/-- Whether any event of the sequence delivers a sample to the observer. -/
def emitsDuring (evs : List Ev) (s : ServiceState) : Bool :=
  match evs with
  | [] => false
  | e :: rest => (stepEv e s).2 || emitsDuring rest (stepEv e s).1

/-- The broker configuration installed by `DataCollectionForm`. -/
def cfg0 : MQTTConfig :=
  { brokerUrl := strCodes "mqtt://broker.example.com"
    username := none
    password := none
    clientId := strCodes "motionsense"
    topic := strCodes "esp32/sensor_data" }

/-- The all-zero sample, used as a concrete test sample. -/
def sample0 : SensorData :=
  { acceleration := { x := 0, y := 0, z := 0 }
    gyroscope := { x := 0, y := 0, z := 0 }
    timestamp := 0 }

lemma chartData_handleSensorData (d : SensorData) (s : FormState) :
    (handleSensorData d s).chartData =
      (s.chartData ++ [d]).drop ((s.chartData ++ [d]).length - 20) := by
  show (if (s.chartData ++ [d]).length > 20 then
          (s.chartData ++ [d]).drop ((s.chartData ++ [d]).length - 20)
        else s.chartData ++ [d]) = _
  split
  · rfl
  · next h =>
    have h0 : (s.chartData ++ [d]).length - 20 = 0 := by omega
    rw [h0, List.drop_zero]

lemma selectedActivity_handleSensorData (d : SensorData) (s : FormState) :
    (handleSensorData d s).selectedActivity = s.selectedActivity := by
  by_cases h : (s.chartData ++ [d]).length > 20 <;> simp [handleSensorData, h]

lemma insertAll_chartData (l : List SensorData) :
    ∀ s : FormState, s.chartData.length ≤ 20 →
      (insertAll l s).chartData =
        (s.chartData ++ l).drop ((s.chartData ++ l).length - 20) := by
  induction l with
  | nil =>
    intro s h
    simp only [insertAll, List.foldl_nil]
    rw [List.append_nil, Nat.sub_eq_zero_of_le h, List.drop_zero]
  | cons d t ih =>
    intro s h
    have hstep : insertAll (d :: t) s = insertAll t (handleSensorData d s) := rfl
    rw [hstep]
    have hlen : (handleSensorData d s).chartData.length ≤ 20 := by
      rw [chartData_handleSensorData]
      simp only [List.length_drop]
      omega
    rw [ih (handleSensorData d s) hlen, chartData_handleSensorData]
    have hk : (s.chartData ++ [d]).length - 20 ≤ (s.chartData ++ [d]).length := by
      omega
    rw [← List.drop_append_of_le_length hk, List.drop_drop]
    have harr : s.chartData ++ d :: t = (s.chartData ++ [d]) ++ t := by
      simp
    rw [harr]
    congr 1
    simp only [List.length_append, List.length_drop, List.length_cons,
      List.length_nil]
    omega

lemma insertAll_selectedActivity (l : List SensorData) :
    ∀ s : FormState, (insertAll l s).selectedActivity = s.selectedActivity := by
  induction l with
  | nil => intro s; rfl
  | cons d t ih =>
    intro s
    have hstep : insertAll (d :: t) s = insertAll t (handleSensorData d s) := rfl
    rw [hstep, ih, selectedActivity_handleSensorData]

/-- Claim C1: starting from a cleared window, delivering any sequence of `N`
samples to `handleSensorData` leaves the `SampleWindow` holding exactly
`min N 20` samples, namely the most recently delivered ones in arrival order
(the suffix of the delivered sequence), so eviction is strict FIFO. -/
theorem C1_sampleWindow_bounded_fifo (l : List SensorData) (s : FormState)
    (h : s.chartData = []) :
    (insertAll l s).chartData.length = min l.length 20 ∧
    (insertAll l s).chartData = l.drop (l.length - 20) := by
  have hmain := insertAll_chartData l s (by rw [h]; simp)
  rw [h] at hmain
  simp only [List.nil_append] at hmain
  refine ⟨?_, hmain⟩
  rw [hmain]
  simp only [List.length_drop]
  omega

/-- Witness for C1 at a concrete run of 21 identical samples from the initial
state: the window holds `min 21 20 = 20` samples, the last 21 minus 1. -/
theorem C1_witness :
    (insertAll (List.replicate 21 sample0) initialFormState).chartData.length =
        min (List.replicate 21 sample0).length 20 ∧
    (insertAll (List.replicate 21 sample0) initialFormState).chartData =
        (List.replicate 21 sample0).drop ((List.replicate 21 sample0).length - 20) :=
  C1_sampleWindow_bounded_fifo (List.replicate 21 sample0) initialFormState rfl

/-- Claim C7: `saveData` never modifies the controller state (in particular
the sample buffer survives a failed save, permitting retry), an empty buffer
makes it fail with the no-data outcome and hand nothing off, and it fails
only when the buffer is empty. -/
theorem C7_save_empty_fails_state_unchanged (s : FormState) :
    (saveData s).2 = s ∧
    (s.chartData = [] → (saveData s).1 = SaveResult.noData) ∧
    ((saveData s).1 = SaveResult.noData → s.chartData = []) := by
  refine ⟨?_, ?_, ?_⟩
  · unfold saveData
    split <;> rfl
  · intro h
    unfold saveData
    rw [if_pos (by rw [h]; rfl)]
  · intro h
    unfold saveData at h
    by_cases hl : s.chartData.length = 0
    · exact List.length_eq_zero.mp hl
    · rw [if_neg hl] at h
      exact absurd h (by simp)

/-- Witness for C7 at the initial state, whose buffer is empty. -/
theorem C7_witness :
    (saveData initialFormState).1 = SaveResult.noData :=
  (C7_save_empty_fails_state_unchanged initialFormState).2.1 rfl

/-- The controller state while recording `walking`, as set up by
`startCollection`. -/
def recState : FormState :=
  { initialFormState with
    selectedActivity := strCodes "walking"
    isCollecting := true }

/-- Counterexample to claim C2: after 21 samples arrive, `saveData` hands off
only the 20 samples still in the bounded buffer, not all 21 — the code keeps
no unbounded accumulation log besides `chartDataRef`. -/
theorem C2_counterexample :
    (saveData (insertAll (List.replicate 21 sample0) recState)).1 =
      SaveResult.saved (List.replicate 20 sample0) (strCodes "walking") ∧
    (saveData (insertAll (List.replicate 21 sample0) recState)).1 ≠
      SaveResult.saved (List.replicate 21 sample0) (strCodes "walking") := by
  constructor
  · decide
  · decide

/-- Claim C2 amended: after `K ≥ 1` samples arrive in a session that started
with a cleared buffer, `saveData` hands off the most recent `min K 20`
samples — the contents of the bounded window, which is the only sample store
the code keeps — together with the selected activity label. -/
theorem C2_amended_save_hands_off_window (l : List SensorData) (s : FormState)
    (h0 : s.chartData = []) (hne : l ≠ []) :
    saveData (insertAll l s) =
      (SaveResult.saved (l.drop (l.length - 20)) s.selectedActivity,
        insertAll l s) := by
  have hchart : (insertAll l s).chartData = l.drop (l.length - 20) := by
    have hm := insertAll_chartData l s (by rw [h0]; simp)
    rw [h0] at hm
    simpa using hm
  have hlen : ¬(insertAll l s).chartData.length = 0 := by
    rw [hchart]
    simp only [List.length_drop]
    have hl : l.length ≠ 0 := fun hh => hne (List.length_eq_zero.mp hh)
    omega
  unfold saveData
  rw [if_neg hlen, hchart, insertAll_selectedActivity]

/-- Witness for C2 (amended) with a single sample from the initial state. -/
theorem C2_witness :
    saveData (insertAll [sample0] initialFormState) =
      (SaveResult.saved ([sample0].drop ([sample0].length - 20))
        initialFormState.selectedActivity,
        insertAll [sample0] initialFormState) :=
  C2_amended_save_hands_off_window [sample0] initialFormState rfl (by simp)

/-- Counterexample to claim C3: `connect()` with no stored configuration is
rejected (`'MQTT not configured'`) and leaves the service unchanged — it does
not fall back to simulated streaming, and no simulated flag exists. -/
theorem C3_counterexample :
    (connectCall initialService).1 = ConnectCallResult.rejectedNotConfigured ∧
    (connectCall initialService).2 = initialService ∧
    (connectCall initialService).2.isConnected = false ∧
    (connectCall initialService).2.intervals = 0 :=
  ⟨rfl, rfl, rfl, rfl⟩

/-- Claim C3 amended: whenever no `BrokerConfig` is present, `connect()`
fails with the not-configured rejection and has no effect on the service
state (so no streaming, simulated or otherwise, begins). -/
theorem C3_amended_connect_unconfigured_rejects (s : ServiceState)
    (h : s.config = none) :
    connectCall s = (ConnectCallResult.rejectedNotConfigured, s) := by
  unfold connectCall
  rw [h]

/-- Witness for C3 (amended) at the freshly constructed service. -/
theorem C3_witness :
    connectCall initialService =
      (ConnectCallResult.rejectedNotConfigured, initialService) :=
  C3_amended_connect_unconfigured_rejects initialService rfl

/-- Counterexample to claim C4: with one connect already in flight (one
pending connect timeout, promise unresolved), a second `connect()` call is
not rejected — there is no busy guard — it proceeds, leaving two connect
timeouts scheduled. -/
theorem C4_counterexample :
    (connectCall (connectCall (configure cfg0 initialService)).2).1 =
      ConnectCallResult.pending ∧
    (connectCall (connectCall (configure cfg0 initialService)).2).2.pendingConnects
      = 2 :=
  ⟨rfl, rfl⟩

/-- Claim C4 amended: a second `connect()` issued while one is in flight is
accepted rather than rejected: the call returns a pending promise, schedules
one more connect timeout alongside the existing one, and installs the new
callback. -/
theorem C4_amended_second_connect_proceeds (s : ServiceState)
    (hp : 1 ≤ s.pendingConnects) (hc : s.config.isSome = true) :
    (connectCall s).1 = ConnectCallResult.pending ∧
    (connectCall s).2.pendingConnects = s.pendingConnects + 1 ∧
    (connectCall s).2.hasCallback = true := by
  cases hcfg : s.config with
  | none => rw [hcfg] at hc; simp at hc
  | some c =>
    unfold connectCall
    rw [hcfg]
    exact ⟨rfl, rfl, rfl⟩

/-- Witness for C4 (amended): the second of two back-to-back connects on the
configured service. -/
theorem C4_witness :
    (connectCall (connectCall (configure cfg0 initialService)).2).1 =
      ConnectCallResult.pending ∧
    (connectCall (connectCall (configure cfg0 initialService)).2).2.pendingConnects
      = (connectCall (configure cfg0 initialService)).2.pendingConnects + 1 ∧
    (connectCall (connectCall (configure cfg0 initialService)).2).2.hasCallback
      = true :=
  C4_amended_second_connect_proceeds
    (connectCall (configure cfg0 initialService)).2 (by decide) rfl

/-- Claim C6: `disconnect()` is idempotent on the embedded `MQTTService`
(two consecutive calls produce the same state as one, and a call on an
already-disconnected service is a no-op success), and likewise for
`disconnectMqtt` of `services/mqttService.ts` (the second call performs no
`end()` side effect and leaves the module client null). -/
theorem C6_disconnect_idempotent :
    (∀ s : ServiceState, disconnectCall (disconnectCall s) = disconnectCall s) ∧
    (∀ s : ServiceState, s.isConnected = false → disconnectCall s = s) ∧
    (∀ c : Option Unit, (disconnectMqtt c).1 = none ∧
      disconnectMqtt (disconnectMqtt c).1 = (none, false)) := by
  refine ⟨?_, ?_, ?_⟩
  · intro s
    unfold disconnectCall
    by_cases h : (s.hasClient && s.isConnected) = true
    · rw [if_pos h]
      simp
    · rw [if_neg h, if_neg h]
  · intro s h
    unfold disconnectCall
    rw [h]
    simp
  · intro c
    cases c <;> exact ⟨rfl, rfl⟩

/-- Witness for C6: two disconnects on a fresh service equal one, and a
disconnect on the already-disconnected fresh service is a no-op. -/
theorem C6_witness :
    disconnectCall (disconnectCall initialService) =
      disconnectCall initialService ∧
    disconnectCall initialService = initialService :=
  ⟨C6_disconnect_idempotent.1 initialService,
    C6_disconnect_idempotent.2.1 initialService rfl⟩

lemma stepEv_no_callback (e : Ev) (s : ServiceState)
    (hcb : s.hasCallback = false) (he : e.isConnectCall = false) :
    (stepEv e s).1.hasCallback = false ∧ (stepEv e s).2 = false := by
  cases e with
  | connectEv => simp [Ev.isConnectCall] at he
  | connTimeoutEv =>
    refine ⟨?_, rfl⟩
    show (fireConnectTimeout s).hasCallback = false
    unfold fireConnectTimeout
    split_ifs <;> simp [hcb]
  | tickEv r1 r2 r3 r4 r5 r6 t =>
    constructor
    · show (fireIntervalTick r1 r2 r3 r4 r5 r6 t s).1.hasCallback = false
      unfold fireIntervalTick
      split_ifs <;> simp [hcb]
    · show ((fireIntervalTick r1 r2 r3 r4 r5 r6 t s).2).isSome = false
      unfold fireIntervalTick
      split_ifs with h1 h2
      · rfl
      · rw [hcb] at h2
        simp at h2
      · rfl
  | disconnectEv =>
    refine ⟨?_, rfl⟩
    show (disconnectCall s).hasCallback = false
    unfold disconnectCall
    split_ifs <;> simp [hcb]

lemma no_emit_of_no_callback (evs : List Ev) :
    ∀ s : ServiceState, s.hasCallback = false →
      (∀ e ∈ evs, e.isConnectCall = false) →
      emitsDuring evs s = false := by
  induction evs with
  | nil => intro s _ _; rfl
  | cons e rest ih =>
    intro s hcb hall
    have he := hall e (List.mem_cons_self e rest)
    have hstep := stepEv_no_callback e s hcb he
    unfold emitsDuring
    rw [hstep.2, Bool.false_or]
    exact ih (stepEv e s).1 hstep.1 fun x hx => hall x (List.mem_cons_of_mem e hx)

/-- Counterexample to claim C5: call `connect` (whose 500 ms timeout is still
pending) and then `disconnect`; the disconnect resolves as a no-op without
clearing the callback, the pending connect then completes, starts the mock
generator, and the observer receives a sample after `disconnect()` resolved. -/
theorem C5_counterexample :
    emitsDuring [Ev.connTimeoutEv, Ev.tickEv 0 0 0 0 0 0 0]
      (runEvs [Ev.connectEv, Ev.disconnectEv] (configure cfg0 initialService))
      = true := by
  rfl

/-- Claim C5 amended: when `disconnect()` is called on a service whose
connection is actually established (`client` present and `isConnected`), it
clears the callback, and afterwards no observer invocation occurs in any
execution step until a new `connect()` call registers a callback.  (A
disconnect that resolves while a connect is still pending does not cancel
it, which is what the counterexample exhibits.) -/
theorem C5_amended_no_emission_after_connected_disconnect (s : ServiceState)
    (hcl : s.hasClient = true) (hconn : s.isConnected = true)
    (evs : List Ev) (hall : ∀ e ∈ evs, e.isConnectCall = false) :
    emitsDuring evs (disconnectCall s) = false := by
  apply no_emit_of_no_callback evs (disconnectCall s) ?_ hall
  unfold disconnectCall
  rw [hcl, hconn]
  rfl

/-- Witness for C5 (amended): disconnecting a streaming service, then a
generator tick and a stray connect timeout deliver nothing. -/
theorem C5_witness :
    emitsDuring [Ev.tickEv 0 0 0 0 0 0 0, Ev.connTimeoutEv]
      (disconnectCall ⟨true, true, true, some cfg0, 0, 1⟩) = false :=
  C5_amended_no_emission_after_connected_disconnect
    ⟨true, true, true, some cfg0, 0, 1⟩ rfl rfl
    [Ev.tickEv 0 0 0 0 0 0 0, Ev.connTimeoutEv]
    (by
      intro e he
      rcases List.mem_cons.mp he with h | h
      · rw [h]; rfl
      · rcases List.mem_cons.mp h with h2 | h2
        · rw [h2]; rfl
        · exact absurd h2 (List.not_mem_nil e))

lemma randomValue_mem_range (r : ℚ) (h : 0 ≤ r ∧ r < 1) :
    -10 ≤ randomValue r ∧ randomValue r ≤ 10 := by
  unfold randomValue
  constructor <;> linarith [h.1, h.2]

/-- Claim C9: every sample the mock generator actually delivers (i.e. every
`some` emission of an interval tick, with each `Math.random()` draw in
`[0,1)`) has all six axis values within `[-10, 10]`. -/
theorem C9_mock_samples_in_range (s : ServiceState) (r1 r2 r3 r4 r5 r6 : ℚ)
    (t : ℤ) (d : SensorData)
    (h1 : 0 ≤ r1 ∧ r1 < 1) (h2 : 0 ≤ r2 ∧ r2 < 1) (h3 : 0 ≤ r3 ∧ r3 < 1)
    (h4 : 0 ≤ r4 ∧ r4 < 1) (h5 : 0 ≤ r5 ∧ r5 < 1) (h6 : 0 ≤ r6 ∧ r6 < 1)
    (hemit : (fireIntervalTick r1 r2 r3 r4 r5 r6 t s).2 = some d) :
    (-10 ≤ d.acceleration.x ∧ d.acceleration.x ≤ 10) ∧
    (-10 ≤ d.acceleration.y ∧ d.acceleration.y ≤ 10) ∧
    (-10 ≤ d.acceleration.z ∧ d.acceleration.z ≤ 10) ∧
    (-10 ≤ d.gyroscope.x ∧ d.gyroscope.x ≤ 10) ∧
    (-10 ≤ d.gyroscope.y ∧ d.gyroscope.y ≤ 10) ∧
    (-10 ≤ d.gyroscope.z ∧ d.gyroscope.z ≤ 10) := by
  unfold fireIntervalTick at hemit
  have hd : mockSample r1 r2 r3 r4 r5 r6 t = d := by
    by_cases hA : s.intervals = 0
    · rw [if_pos hA] at hemit
      exact absurd hemit (by simp)
    · rw [if_neg hA] at hemit
      by_cases hB : (s.isConnected && s.hasCallback) = true
      · rw [if_pos hB] at hemit
        exact Option.some.inj hemit
      · rw [if_neg hB] at hemit
        exact absurd hemit (by simp)
  rw [← hd]
  exact ⟨randomValue_mem_range r1 h1, randomValue_mem_range r2 h2,
    randomValue_mem_range r3 h3, randomValue_mem_range r4 h4,
    randomValue_mem_range r5 h5, randomValue_mem_range r6 h6⟩

/-- Witness for C9: a tick of the streaming service with every draw `1/2`
emits the all-zero-axes sample, whose axes lie in `[-10, 10]`. -/
theorem C9_witness :
    (-10 ≤ (mockSample (1/2) (1/2) (1/2) (1/2) (1/2) (1/2) 0).acceleration.x ∧
      (mockSample (1/2) (1/2) (1/2) (1/2) (1/2) (1/2) 0).acceleration.x ≤ 10) ∧
    (-10 ≤ (mockSample (1/2) (1/2) (1/2) (1/2) (1/2) (1/2) 0).acceleration.y ∧
      (mockSample (1/2) (1/2) (1/2) (1/2) (1/2) (1/2) 0).acceleration.y ≤ 10) ∧
    (-10 ≤ (mockSample (1/2) (1/2) (1/2) (1/2) (1/2) (1/2) 0).acceleration.z ∧
      (mockSample (1/2) (1/2) (1/2) (1/2) (1/2) (1/2) 0).acceleration.z ≤ 10) ∧
    (-10 ≤ (mockSample (1/2) (1/2) (1/2) (1/2) (1/2) (1/2) 0).gyroscope.x ∧
      (mockSample (1/2) (1/2) (1/2) (1/2) (1/2) (1/2) 0).gyroscope.x ≤ 10) ∧
    (-10 ≤ (mockSample (1/2) (1/2) (1/2) (1/2) (1/2) (1/2) 0).gyroscope.y ∧
      (mockSample (1/2) (1/2) (1/2) (1/2) (1/2) (1/2) 0).gyroscope.y ≤ 10) ∧
    (-10 ≤ (mockSample (1/2) (1/2) (1/2) (1/2) (1/2) (1/2) 0).gyroscope.z ∧
      (mockSample (1/2) (1/2) (1/2) (1/2) (1/2) (1/2) 0).gyroscope.z ≤ 10) :=
  C9_mock_samples_in_range ⟨true, true, true, some cfg0, 0, 1⟩
    (1/2) (1/2) (1/2) (1/2) (1/2) (1/2) 0
    (mockSample (1/2) (1/2) (1/2) (1/2) (1/2) (1/2) 0)
    (by norm_num) (by norm_num) (by norm_num)
    (by norm_num) (by norm_num) (by norm_num)
    rfl

lemma lowerCode_idem (c : Nat) : lowerCode (lowerCode c) = lowerCode c := by
  unfold lowerCode
  by_cases h : 65 ≤ c ∧ c ≤ 90
  · rw [if_pos h, if_neg (by omega)]
  · rw [if_neg h, if_neg h]

lemma lowerStr_idem (s : Str) : lowerStr (lowerStr s) = lowerStr s := by
  induction s with
  | nil => rfl
  | cons c t ih =>
    show lowerCode (lowerCode c) :: lowerStr (lowerStr t)
        = lowerCode c :: lowerStr t
    rw [lowerCode_idem, ih]

lemma isWS_ge_65 (c : Nat) (h : 65 ≤ c) : isWS c = false := by
  unfold isWS
  simp only [Bool.or_eq_false_iff, beq_eq_false_iff_ne, ne_eq]
  omega

lemma isWS_lowerCode (c : Nat) : isWS (lowerCode c) = isWS c := by
  unfold lowerCode
  by_cases h : 65 ≤ c ∧ c ≤ 90
  · rw [if_pos h, isWS_ge_65 (c + 32) (by omega), isWS_ge_65 c (by omega)]
  · rw [if_neg h]

lemma head?_dropWhile (p : Nat → Bool) (l : List Nat) :
    ∀ c, (List.dropWhile p l).head? = some c → p c = false := by
  induction l with
  | nil => intro c h; simp at h
  | cons a t ih =>
    intro c h
    rw [List.dropWhile_cons] at h
    by_cases ha : p a = true
    · rw [if_pos ha] at h
      exact ih c h
    · rw [if_neg ha] at h
      have hac : a = c := Option.some.inj h
      subst hac
      simp only [Bool.not_eq_true] at ha
      exact ha

lemma getLast?_dropWhile (p : Nat → Bool) (l : List Nat) :
    List.dropWhile p l ≠ [] →
      (List.dropWhile p l).getLast? = l.getLast? := by
  induction l with
  | nil => intro h; exact absurd rfl h
  | cons a t ih =>
    intro h
    rw [List.dropWhile_cons] at h ⊢
    by_cases ha : p a = true
    · rw [if_pos ha] at h ⊢
      rw [ih h]
      have ht : t ≠ [] := by
        intro hnil
        rw [hnil] at h
        exact h rfl
      cases t with
      | nil => exact absurd rfl ht
      | cons b u => rw [List.getLast?_cons_cons]
    · rw [if_neg ha]

/-- A string with no whitespace at either end (what `trim` produces). -/
def TrimmedStr (s : Str) : Prop :=
  (∀ c, s.head? = some c → isWS c = false) ∧
  (∀ c, s.getLast? = some c → isWS c = false)

lemma dropWhile_eq_self_of_head (p : Nat → Bool) (l : List Nat)
    (h : ∀ c, l.head? = some c → p c = false) :
    List.dropWhile p l = l := by
  cases l with
  | nil => rfl
  | cons a t =>
    rw [List.dropWhile_cons]
    have ha := h a rfl
    simp [ha]

lemma trimStr_eq_self (s : Str) (h : TrimmedStr s) : trimStr s = s := by
  unfold trimStr
  rw [dropWhile_eq_self_of_head isWS s h.1]
  rw [dropWhile_eq_self_of_head isWS s.reverse ?_, List.reverse_reverse]
  intro c hc
  rw [List.head?_reverse] at hc
  exact h.2 c hc

lemma trimmed_trimStr (s : Str) : TrimmedStr (trimStr s) := by
  constructor
  · intro c hc
    unfold trimStr at hc
    rw [List.head?_reverse] at hc
    by_cases hv : List.dropWhile isWS (List.dropWhile isWS s).reverse = []
    · rw [hv] at hc
      simp at hc
    · rw [getLast?_dropWhile isWS _ hv, List.getLast?_reverse] at hc
      exact head?_dropWhile isWS s c hc
  · intro c hc
    unfold trimStr at hc
    rw [List.getLast?_reverse] at hc
    exact head?_dropWhile isWS _ c hc

lemma trimStr_idem (s : Str) : trimStr (trimStr s) = trimStr s :=
  trimStr_eq_self (trimStr s) (trimmed_trimStr s)

lemma dropWhile_isWS_lower (l : Str) :
    List.dropWhile isWS (l.map lowerCode)
      = (List.dropWhile isWS l).map lowerCode := by
  induction l with
  | nil => rfl
  | cons a t ih =>
    show List.dropWhile isWS (lowerCode a :: t.map lowerCode) = _
    rw [List.dropWhile_cons, List.dropWhile_cons, isWS_lowerCode]
    by_cases h : isWS a = true
    · rw [if_pos h, if_pos h, ih]
    · rw [if_neg h, if_neg h]
      rfl

lemma trimStr_lowerStr (s : Str) : trimStr (lowerStr s) = lowerStr (trimStr s) := by
  unfold trimStr lowerStr
  rw [dropWhile_isWS_lower, ← List.map_reverse, dropWhile_isWS_lower,
    ← List.map_reverse]

lemma inserted_entry_normal (n : Str) :
    trimStr (lowerStr (trimStr n)) = lowerStr (trimStr n) ∧
    lowerStr (lowerStr (trimStr n)) = lowerStr (trimStr n) := by
  constructor
  · rw [trimStr_lowerStr, trimStr_idem]
  · exact lowerStr_idem (trimStr n)

lemma activities_handleSensorData (d : SensorData) (s : FormState) :
    (handleSensorData d s).activities = s.activities := by
  by_cases h : (s.chartData ++ [d]).length > 20 <;> simp [handleSensorData, h]

lemma saveData_snd (s : FormState) : (saveData s).2 = s := by
  unfold saveData
  split <;> rfl

lemma activities_addNewActivity (s : FormState) :
    (addNewActivity s).2.activities = s.activities ∨
    (addNewActivity s).2.activities
      = s.activities ++ [lowerStr (trimStr s.newActivity)] := by
  unfold addNewActivity
  split_ifs <;> simp

lemma activities_formStep (s s' : FormState) (h : FormStep s s') :
    s'.activities = s.activities ∨
    ∃ n, s'.activities = s.activities ++ [lowerStr (trimStr n)] := by
  cases h with
  | handle d s => exact Or.inl (activities_handleSensorData d s)
  | start s =>
    unfold startCollection
    split <;> exact Or.inl rfl
  | stop s => exact Or.inl rfl
  | save s => exact Or.inl (by rw [saveData_snd])
  | add s =>
    rcases activities_addNewActivity s with h1 | h1
    · exact Or.inl h1
    · exact Or.inr ⟨s.newActivity, h1⟩
  | typeNew t s => exact Or.inl rfl
  | select a s h => exact Or.inl rfl
  | toggleInput b s => exact Or.inl rfl

/-- Claim C10: in every reachable controller state, every entry of the
activity set is its own trim and its own lowercasing — the seeded defaults
are lowercase and every successful `addNewActivity` inserts the trimmed,
lowercased form — and every controller operation preserves this. -/
theorem C10_activities_normalized (s : FormState) (h : Reachable s) :
    ∀ a ∈ s.activities, trimStr a = a ∧ lowerStr a = a := by
  induction h with
  | init =>
    intro a ha
    simp only [initialFormState, DEFAULT_ACTIVITIES, List.mem_cons,
      List.not_mem_nil, or_false] at ha
    rcases ha with h1 | h1 | h1 <;> subst h1 <;> exact ⟨by decide, by decide⟩
  | step s1 s2 _ hstep ih =>
    intro a ha
    rcases activities_formStep s1 s2 hstep with heq | ⟨n, heq⟩
    · rw [heq] at ha
      exact ih a ha
    · rw [heq] at ha
      rcases List.mem_append.mp ha with h1 | h1
      · exact ih a h1
      · have han : a = lowerStr (trimStr n) := by simpa using h1
        subst han
        exact inserted_entry_normal n

/-- Witness for C10 at the initial state and its first default activity. -/
theorem C10_witness :
    trimStr (strCodes "standing") = strCodes "standing" ∧
    lowerStr (strCodes "standing") = strCodes "standing" :=
  C10_activities_normalized initialFormState Reachable.init
    (strCodes "standing") (by decide)

/-- The initial state with a whitespace-only name typed into the
new-activity input. -/
def blankNameState : FormState :=
  { initialFormState with newActivity := strCodes " " }

/-- Counterexample to claim C8: for the whitespace-only name `" "`, whose
trimmed case-insensitive form is absent from the activity set, the claim
says `addNewActivity` adds it and selects it; the code instead reports an
invalid name and changes nothing. -/
theorem C8_counterexample :
    (¬∃ a ∈ blankNameState.activities,
        lowerStr a = lowerStr (trimStr blankNameState.newActivity)) ∧
    (addNewActivity blankNameState).1 = AddResult.invalid ∧
    (addNewActivity blankNameState).2 = blankNameState := by
  refine ⟨by decide, rfl, rfl⟩

/-- Claim C8 amended: over activity sets whose entries are lowercase (true in
every reachable state), `addNewActivity` fails with the duplicate outcome
exactly when the trimmed, case-insensitively compared form of the typed name
already occurs in the set; a name whose trim is empty fails with the
invalid-name outcome instead; otherwise the trimmed lowercased name is
appended and becomes the selected activity. -/
theorem C8_amended_addActivity (s : FormState)
    (hinv : ∀ a ∈ s.activities, lowerStr a = a) :
    (trimStr s.newActivity = [] → addNewActivity s = (AddResult.invalid, s)) ∧
    (trimStr s.newActivity ≠ [] →
      (((∃ a ∈ s.activities, lowerStr a = lowerStr (trimStr s.newActivity)) →
          addNewActivity s = (AddResult.duplicate, s)) ∧
        ((¬∃ a ∈ s.activities, lowerStr a = lowerStr (trimStr s.newActivity)) →
          addNewActivity s =
            (AddResult.added,
              { s with
                activities := s.activities ++ [lowerStr (trimStr s.newActivity)]
                selectedActivity := lowerStr (trimStr s.newActivity)
                newActivity := []
                showNewActivityInput := false })))) := by
  have hmem : lowerStr (trimStr s.newActivity) ∈ s.activities ↔
      ∃ a ∈ s.activities, lowerStr a = lowerStr (trimStr s.newActivity) := by
    constructor
    · intro hm
      exact ⟨lowerStr (trimStr s.newActivity), hm,
        lowerStr_idem (trimStr s.newActivity)⟩
    · rintro ⟨a, hma, hla⟩
      have haa : a = lowerStr (trimStr s.newActivity) :=
        (hinv a hma).symm.trans hla
      rw [← haa]
      exact hma
  refine ⟨?_, ?_⟩
  · intro h
    unfold addNewActivity
    rw [if_pos h]
  · intro hne
    refine ⟨?_, ?_⟩
    · intro hex
      unfold addNewActivity
      rw [if_neg hne, if_pos (hmem.mpr hex)]
    · intro hnex
      unfold addNewActivity
      rw [if_neg hne, if_neg fun hm => hnex (hmem.mp hm)]

/-- Witness for C8 (amended): typing `"Walking"` into the initial state hits
the duplicate branch, because `walking` is already seeded. -/
theorem C8_witness :
    addNewActivity { initialFormState with newActivity := strCodes "Walking" }
      = (AddResult.duplicate,
          { initialFormState with newActivity := strCodes "Walking" }) :=
  ((C8_amended_addActivity
      { initialFormState with newActivity := strCodes "Walking" }
      (by decide)).2 (by decide)).1 (by decide)

end MotionSense
